import Mathlib

set_option autoImplicit false

/-!
Verification development for the key-value caching facade of `src/kv.rs`
(repository `rstartup`): the key normalizer `normailze_key`, the Filesystem
and Remote Store backends, and the `KVManager` facade with its derived
operations `get_some`, `get_or` and `get_or_init`.

Machine integers (`u64`) are modelled as `Nat`; the claims under study only
involve epoch seconds and TTLs far below `2^64`, so wrap-around of
`expire + now` is outside the model (in a checked Rust build that overflow
panics rather than producing a value).  Asynchronous I/O calls are modelled
by explicit state passing: the outcome of each I/O primitive is a function of
an explicit state (or a parameter), and the pure logic that the Rust code
wraps around those outcomes is translated literally.  JSON serialization by
`serde_json` is modelled by storing either a decodable value or an
explicitly undecodable blob, reflecting that `to_string` followed by
`from_str` round-trips a serializable value.
-/

/-- Process environment: maps a variable name to its value when the variable
is set.  Models `std::env::var` lookups. -/
abbrev EnvMap := String → Option String

/-- The per-character action of Rust `str::replace` with a one-character
pattern `pat` and a one-character replacement `sub`: an occurrence of `pat`
becomes `sub`, every other character is kept. -/
def replCh (pat sub c : Char) : Char := if c = pat then sub else c

/-- Models Rust `str::replace` with a one-character pattern and a
one-character replacement string: every occurrence of `pat` in `s` is
replaced by `sub`. -/
def String.replaceChar (s : String) (pat sub : Char) : String :=
  String.mk (s.data.map (replCh pat sub))

/-- Embedding of `normailze_key` (src/kv.rs:47-64): twelve successive
single-character replacements turn `/ \ : * ? " < > | . @ _` into `-`, then
the value of the `TOKI_KV_PREFIX` environment variable (empty string when the
variable is unset, matching `unwrap_or_else`) is prepended.  The `env::var`
call is modelled by the explicit `env` parameter. -/
def normailze_key (env : EnvMap) (key : String) : String :=
  let key :=
    ((((((((((((key.replaceChar '/' '-').replaceChar '\\' '-').replaceChar
      ':' '-').replaceChar '*' '-').replaceChar '?' '-').replaceChar '\"'
      '-').replaceChar '<' '-').replaceChar '>' '-').replaceChar '|'
      '-').replaceChar '.' '-').replaceChar '@' '-').replaceChar '_' '-')
  let prrefix := (env "TOKI_KV_PREFIX").getD ""
  prrefix ++ key

/-- The characters that the specification lists as replaced by `-` during key
normalization. -/
def badChars : List Char :=
  ['/', '\\', ':', '*', '?', '\"', '<', '>', '|', '.', '@', '_']

/-- Character-level normalization as the specification words it: a listed
character becomes `-`, every other character is kept. -/
def normChar (c : Char) : Char :=
  if c ∈ badChars then '-' else c

/-- Written from the specification's words, for comparison with
`normailze_key`: each occurrence of a listed character is replaced by `-` and
the configured namespace value is prepended. -/
def normalize_spec (env : EnvMap) (key : String) : String :=
  (env "TOKI_KV_PREFIX").getD "" ++ String.mk (key.data.map normChar)

/-! ## Data model of the backends and the facade -/

/-- Kinds of low-level I/O failure that a filesystem primitive can report,
mirroring the distinctions `std::io::ErrorKind` draws between "file not
found" and every other local failure (permissions, disk, path errors). -/
inductive IoKind : Type
  | notFound
  | permissionDenied
  | otherFailure
deriving DecidableEq

/-- The error value carried by `Result<_, AnyError>` in the claims' scope:
`notFound` is the boxed `NotFoundError`, `decode` a `serde_json` failure,
`ioErr k` a propagated filesystem failure of kind `k`, and `connection` a
propagated redis client failure. -/
inductive KVError : Type
  | notFound
  | decode
  | ioErr (k : IoKind)
  | connection
deriving DecidableEq

/-- Models `e.is::<NotFoundError>()`: the dynamic downcast test used by the
facade's derived operations. -/
def is_NotFoundError : KVError → Bool
  | .notFound => true
  | _ => false

/-- Bytes stored for a value of type `V`: either the `serde_json` encoding of
a value `v` (which decodes back to `v`) or bytes that do not deserialize into
`V`. -/
inductive StoredBytes (V : Type) : Type
  | val (v : V)
  | invalid
deriving DecidableEq

/-- Embedding of `KVFilesystemJsonData` (src/kv.rs:70-77): the JSON document
one file holds, a value plus an absolute expiration epoch second (`0` read as
"never expires" by `get`). -/
structure KVFilesystemJsonData (V : Type) : Type where
  data : V
  expire : Nat
deriving DecidableEq

/-- Embedding of the `KVFilesystem` struct (src/kv.rs:66-69): the root
directory path. -/
structure KVFilesystem : Type where
  path : String
deriving DecidableEq

/-- Embedding of the `KVRedis` struct (src/kv.rs:129-132): the client handle;
the behaviour of the connection lives in `RedisState`. -/
structure KVRedis : Type where
deriving DecidableEq

/-- State of the local filesystem as the Filesystem backend sees it:
`files` maps a path to the bytes of the file stored there (when present) and
`wfail` marks the paths on which a write (`tokio::fs::write`) currently fails,
with the failure's kind. -/
structure FsState (V : Type) : Type where
  files : String → Option (StoredBytes (KVFilesystemJsonData V))
  wfail : String → Option IoKind

/-- State of the remote redis-compatible store: the bytes stored under each
key, and whether connections to the store currently succeed.  The store's
native TTL mechanism, to which the Remote Store backend delegates expiry, is
not modelled; no claim under study depends on remote expiry. -/
structure RedisState (V : Type) : Type where
  store : String → Option (StoredBytes V)
  connOk : Bool

/-- The combined external state the facade's operations act on. -/
structure World (V : Type) : Type where
  fsSt : FsState V
  rsSt : RedisState V

/-- Embedding of `KvGetOrInitResult` (src/kv.rs:286-289). -/
structure KvGetOrInitResult (B : Type) : Type where
  value : B
  hit : Bool
deriving DecidableEq

/-- The path `format!("{}/{}.json", self.path, key)` used by every
Filesystem backend operation. -/
def filePath (root key : String) : String :=
  root ++ "/" ++ key ++ ".json"

/-- The pure continuation of `KVFilesystem::get` (src/kv.rs:89-106) after the
`tokio::fs::read_to_string` call, whose outcome is the `contents` parameter:
on a successful read, a `serde_json::from_str` failure is propagated by `?`
(kind `decode`), an entry with `expire > 0 && expire < now` fails with
`NotFoundError`, and otherwise the entry's data is returned; every failed
read — whatever its kind — becomes `Err(Box::new(NotFoundError {}))`. -/
def KVFilesystem.get_logic {V : Type}
    (contents : Except IoKind (StoredBytes (KVFilesystemJsonData V)))
    (now : Nat) : Except KVError V :=
  match contents with
  | .ok .invalid => .error .decode
  | .ok (.val json) =>
      if json.expire > 0 ∧ json.expire < now then .error .notFound
      else .ok json.data
  | .error _ => .error .notFound

/-- Models `tokio::fs::read_to_string`: reading a present file yields its
bytes, reading an absent file fails with the not-found I/O error.  (Other
read-failure kinds are covered by the generality of `get_logic`.) -/
def fsReadToString {V : Type} (st : FsState V) (path : String) :
    Except IoKind (StoredBytes (KVFilesystemJsonData V)) :=
  match st.files path with
  | some b => .ok b
  | none => .error .notFound

/-- Embedding of `KVFilesystem::get` (src/kv.rs:89-106). -/
def KVFilesystem.get {V : Type} (self : KVFilesystem) (st : FsState V)
    (now : Nat) (key : String) : Except KVError V :=
  KVFilesystem.get_logic (fsReadToString st (filePath self.path key)) now

/-- Embedding of `KVFilesystem::set` (src/kv.rs:107-121): the entry written
holds `expire = ttl + now` as its absolute expiry; `tokio::fs::write` failures
(marked in `wfail`) are propagated by `?`.  `serde_json::to_string` of a
serializable value is modelled as succeeding. -/
def KVFilesystem.set {V : Type} (self : KVFilesystem) (st : FsState V)
    (now : Nat) (key : String) (value : V) (expire : Nat) :
    Except KVError Unit × FsState V :=
  let path := filePath self.path key
  match st.wfail path with
  | some k => (.error (.ioErr k), st)
  | none =>
      (.ok (), { st with
        files := fun p =>
          if p = path then some (.val ⟨value, expire + now⟩) else st.files p })

/-- Embedding of `KVFilesystem::del` (src/kv.rs:122-126):
`tokio::fs::remove_file` removes a present file and fails with the not-found
I/O error on an absent one; either outcome is propagated by `?`. -/
def KVFilesystem.del {V : Type} (self : KVFilesystem) (st : FsState V)
    (key : String) : Except KVError Unit × FsState V :=
  let path := filePath self.path key
  match st.files path with
  | some _ =>
      (.ok (), { st with
        files := fun p => if p = path then none else st.files p })
  | none => (.error (.ioErr .notFound), st)

/-- Embedding of `KVRedis::get` (src/kv.rs:140-155): obtaining a connection
or issuing the read fails with a client error when the store is unreachable;
a `Data` reply is deserialized (a failure propagating as `decode`), and any
other reply — in particular `Nil` for an absent key — becomes
`Err(Box::new(NotFoundError {}))`. -/
def KVRedis.get {V : Type} (_self : KVRedis) (st : RedisState V)
    (key : String) : Except KVError V :=
  if st.connOk then
    match st.store key with
    | some (.val v) => .ok v
    | some .invalid => .error .decode
    | none => .error .notFound
  else .error .connection

/-- Embedding of `KVRedis::set` (src/kv.rs:156-166): `set_ex` stores the
JSON-encoded value under the key; the store's native TTL is not modelled. -/
def KVRedis.set {V : Type} (_self : KVRedis) (st : RedisState V)
    (key : String) (value : V) (_expire : Nat) :
    Except KVError Unit × RedisState V :=
  if st.connOk then
    (.ok (), { st with
      store := fun k => if k = key then some (.val value) else st.store k })
  else (.error .connection, st)

/-- Embedding of `KVRedis::del` (src/kv.rs:167-171): redis `DEL` succeeds
whether or not the key is present. -/
def KVRedis.del {V : Type} (_self : KVRedis) (st : RedisState V)
    (key : String) : Except KVError Unit × RedisState V :=
  if st.connOk then
    (.ok (), { st with store := fun k => if k = key then none else st.store k })
  else (.error .connection, st)

/-- Embedding of the `KVManager` enum (src/kv.rs:174-178): exactly one active
backend.  (The constructors carry the backend structs, as in the source.) -/
inductive KVManager : Type
  | KVFilesystem (kv : KVFilesystem)
  | KVRedis (kv : KVRedis)
deriving DecidableEq

/-- Embedding of `KVManager::get` (src/kv.rs:192-202): normalize the key,
dispatch to the active backend. -/
def KVManager.get {V : Type} (m : KVManager) (env : EnvMap) (w : World V)
    (now : Nat) (key : String) : Except KVError V :=
  match m with
  | .KVFilesystem kv => kv.get w.fsSt now (normailze_key env key)
  | .KVRedis kv => kv.get w.rsSt (normailze_key env key)

/-- Embedding of `KVManager::set` (src/kv.rs:237-248). -/
def KVManager.set {V : Type} (m : KVManager) (env : EnvMap) (w : World V)
    (now : Nat) (key : String) (value : V) (expire : Nat) :
    Except KVError Unit × World V :=
  match m with
  | .KVFilesystem kv =>
      let r := kv.set w.fsSt now (normailze_key env key) value expire
      (r.1, { w with fsSt := r.2 })
  | .KVRedis kv =>
      let r := kv.set w.rsSt (normailze_key env key) value expire
      (r.1, { w with rsSt := r.2 })

/-- Embedding of `KVManager::del` (src/kv.rs:249-255). -/
def KVManager.del {V : Type} (m : KVManager) (env : EnvMap) (w : World V)
    (key : String) : Except KVError Unit × World V :=
  match m with
  | .KVFilesystem kv =>
      let r := kv.del w.fsSt (normailze_key env key)
      (r.1, { w with fsSt := r.2 })
  | .KVRedis kv =>
      let r := kv.del w.rsSt (normailze_key env key)
      (r.1, { w with rsSt := r.2 })

/-- Embedding of `KVManager::get_some` (src/kv.rs:203-219): call `get`,
convert a `NotFoundError` failure (tested by the dynamic downcast) into
`Ok(None)`, propagate every other failure. -/
def KVManager.get_some {V : Type} (m : KVManager) (env : EnvMap) (w : World V)
    (now : Nat) (key : String) : Except KVError (Option V) :=
  match KVManager.get m env w now key with
  | .ok d => .ok (some d)
  | .error e => if is_NotFoundError e then .ok none else .error e

/-- Embedding of `KVManager::get_or` (src/kv.rs:220-236). -/
def KVManager.get_or {V : Type} (m : KVManager) (env : EnvMap) (w : World V)
    (now : Nat) (key : String) (dflt : V) : Except KVError V :=
  match KVManager.get m env w now key with
  | .ok d => .ok d
  | .error e => if is_NotFoundError e then .ok dflt else .error e

/-- Embedding of `KVManager::get_or_init` (src/kv.rs:257-283).  The caller's
one-shot asynchronous initializer is modelled by the outcome `init` its
future produces when awaited; the second component of the result counts how
many times `init()` is invoked during the call (the source awaits it in
exactly one place, on the miss path).  The third component is the state after
the call. -/
def KVManager.get_or_init {V : Type} (m : KVManager) (env : EnvMap)
    (w : World V) (now : Nat) (key : String) (init : Except KVError V)
    (expire : Nat) :
    Except KVError (KvGetOrInitResult V) × Nat × World V :=
  match KVManager.get_some m env w now key with
  | .error e => (.error e, 0, w)
  | .ok (some v) => (.ok ⟨v, true⟩, 0, w)
  | .ok none =>
      match init with
      | .error e => (.error e, 1, w)
      | .ok value =>
          match KVManager.set m env w now key value expire with
          | (.error e, w2) => (.error e, 1, w2)
          | (.ok _, w2) => (.ok ⟨value, false⟩, 1, w2)

/-! ## Concrete states used by witnesses and counterexamples -/

/-- An empty filesystem on which every write succeeds. -/
def fs0 : FsState Nat := ⟨fun _ => none, fun _ => none⟩

/-- A reachable remote store holding nothing. -/
def rs0 : RedisState Nat := ⟨fun _ => none, true⟩

/-- A world with an empty filesystem and an empty, reachable remote store. -/
def w0 : World Nat := ⟨fs0, rs0⟩

/-- A world with an empty filesystem on which every write fails with a
permission error, and an empty, reachable remote store. -/
def wFail : World Nat := ⟨⟨fun _ => none, fun _ => some .permissionDenied⟩, rs0⟩

/-- An environment with no variables set. -/
def envEmpty : EnvMap := fun _ => none

/-- An environment that sets `TOKI_KV_PREFIX` to `app-`. -/
def envWithNs : EnvMap :=
  fun n => if n = "TOKI_KV_PREFIX" then some "app-" else none

/-- An environment that sets `TOKI_KV_PREFIX` to `app-` and every other
variable to `x`: it agrees with `envWithNs` only on `TOKI_KV_PREFIX`. -/
def envWithNs2 : EnvMap :=
  fun n => if n = "TOKI_KV_PREFIX" then some "app-" else some "x"

/-! ## Supporting lemmas -/

theorem replace_chain_char (c : Char) :
    replCh '_' '-' (replCh '@' '-' (replCh '.' '-' (replCh '|' '-'
      (replCh '>' '-' (replCh '<' '-' (replCh '\"' '-' (replCh '?' '-'
      (replCh '*' '-' (replCh ':' '-' (replCh '\\' '-' (replCh '/' '-'
      c))))))))))) = normChar c := by
  by_cases h : c ∈ badChars
  · simp only [badChars, List.mem_cons, List.not_mem_nil, or_false] at h
    rcases h with rfl | rfl | rfl | rfl | rfl | rfl | rfl | rfl | rfl | rfl | rfl | rfl <;> rfl
  · have h' := h
    simp only [badChars, List.mem_cons, List.not_mem_nil, or_false, not_or] at h'
    obtain ⟨h1, h2, h3, h4, h5, h6, h7, h8, h9, h10, h11, h12⟩ := h'
    simp [replCh, normChar, h, h1, h2, h3, h4, h5, h6, h7, h8, h9, h10, h11, h12]

theorem chain_maps_eq (l : List Char) :
    (((((((((((l.map (replCh '/' '-')).map (replCh '\\' '-')).map
      (replCh ':' '-')).map (replCh '*' '-')).map (replCh '?' '-')).map
      (replCh '\"' '-')).map (replCh '<' '-')).map (replCh '>' '-')).map
      (replCh '|' '-')).map (replCh '.' '-')).map (replCh '@' '-')).map
      (replCh '_' '-')
    = l.map normChar := by
  induction l with
  | nil => rfl
  | cons a t ih =>
    simp only [List.map_cons]
    rw [ih, replace_chain_char a]

theorem replaceChar_mk (l : List Char) (p t : Char) :
    (String.mk l).replaceChar p t = String.mk (l.map (replCh p t)) := rfl

theorem normailze_key_eq_spec (env : EnvMap) (key : String) :
    normailze_key env key = normalize_spec env key := by
  obtain ⟨l⟩ := key
  simp only [normailze_key, normalize_spec, replaceChar_mk, String.data,
    chain_maps_eq]

theorem is_NotFoundError_true_iff (e : KVError) :
    is_NotFoundError e = true ↔ e = .notFound := by
  cases e <;> simp [is_NotFoundError]

/-! ## Claim C9 -/

/-- C9: for every input string, the normalized key equals the input with each
occurrence of the characters `/ \ : * ? " < > | . @ _` replaced by `-`, with
the configured namespace value prepended; in particular `normailze_key` sends
`a/b:c` and `a-b-c` to the same key. -/
theorem c9_normalize_replaces_listed_chars :
    (∀ (env : EnvMap) (key : String),
      normailze_key env key = normalize_spec env key) ∧
    (∀ env : EnvMap, normailze_key env "a/b:c" = normailze_key env "a-b-c") := by
  refine ⟨normailze_key_eq_spec, fun env => ?_⟩
  rw [normailze_key_eq_spec, normailze_key_eq_spec]
  have h : String.mk (("a/b:c").data.map normChar)
      = String.mk (("a-b-c").data.map normChar) := by decide
  simp only [normalize_spec, h]

/-! ## Claim C8 -/

/-- C8 counterexample: the result of `normailze_key` does not depend only on
the input key: under an environment that sets `TOKI_KV_PREFIX` to `app-` the
key `k` normalizes differently than under an empty environment. -/
theorem c8_env_dependence_counterexample :
    normailze_key envWithNs "k" ≠ normailze_key envEmpty "k" := by decide

/-- C8 amended: normalization is deterministic and its result depends only on
the input key string and the value of the `TOKI_KV_PREFIX` environment
variable: two calls with the same key under any two process environments that
agree on `TOKI_KV_PREFIX` return equal results (and, being a pure function of
those two inputs in this model, it has no side effects). -/
theorem c8_amended_env_var_determines (env1 env2 : EnvMap) (key : String)
    (h : env1 "TOKI_KV_PREFIX" = env2 "TOKI_KV_PREFIX") :
    normailze_key env1 key = normailze_key env2 key := by
  simp only [normailze_key, h]

/-- C8 amended, witness: two environments that differ everywhere except on
`TOKI_KV_PREFIX` normalize `k` identically. -/
theorem c8_amended_env_var_determines_witness :
    envWithNs "TOKI_KV_PREFIX" = envWithNs2 "TOKI_KV_PREFIX" ∧
    normailze_key envWithNs "k" = normailze_key envWithNs2 "k" :=
  ⟨by decide, c8_amended_env_var_determines envWithNs envWithNs2 "k" (by decide)⟩

/-! ## Claim C2 -/

/-- C2 counterexample: a read that fails with a permission error (not
file-absence) makes `KVFilesystem::get` fail with `NotFound`, not with an
I/O-kind error: the `Err(_)` arm of the read result converts every read
failure into `NotFoundError`. -/
theorem c2_read_failure_counterexample :
    @KVFilesystem.get_logic Nat (.error .permissionDenied) 0
      = .error .notFound ∧
    (Except.error KVError.notFound : Except KVError Nat)
      ≠ .error (.ioErr .permissionDenied) :=
  ⟨rfl, by simp⟩

/-- C2 amended: the Filesystem backend's `get` fails with `NotFound` exactly
when the read of the file fails — for any reason, file-absence, permissions,
disk or path errors alike — or the entry is logically expired; a successful
read of undecodable bytes surfaces as `Decode`; no outcome of `get` is an
I/O-kind error. -/
theorem c2_amended_error_classification {V : Type}
    (contents : Except IoKind (StoredBytes (KVFilesystemJsonData V)))
    (t : Nat) :
    (KVFilesystem.get_logic contents t = .error .notFound ↔
      ((∃ k, contents = .error k) ∨
        ∃ e, contents = .ok (.val e) ∧ 0 < e.expire ∧ e.expire < t)) ∧
    (KVFilesystem.get_logic contents t = .error .decode ↔
      contents = .ok .invalid) ∧
    (∀ k : IoKind, KVFilesystem.get_logic contents t ≠ .error (.ioErr k)) := by
  cases contents with
  | error k => simp [KVFilesystem.get_logic]
  | ok b =>
    cases b with
    | invalid => simp [KVFilesystem.get_logic]
    | val e =>
      by_cases hc : e.expire > 0 ∧ e.expire < t
      · simp only [KVFilesystem.get_logic]
        rw [if_pos hc]
        exact ⟨iff_of_true rfl (Or.inr ⟨e, rfl, hc.1, hc.2⟩), by simp, by simp⟩
      · simp only [KVFilesystem.get_logic]
        rw [if_neg hc]
        refine ⟨⟨fun h => absurd h (by simp), ?_⟩, by simp, by simp⟩
        rintro (⟨k, hk⟩ | ⟨e2, he2, h1, h2⟩)
        · exact absurd hk (by simp)
        · simp only [Except.ok.injEq, StoredBytes.val.injEq] at he2
          subst he2
          exact absurd ⟨h1, h2⟩ hc

/-! ## Claim C3 -/

/-- C3 counterexample: an entry written with `ttl_seconds = 0` at epoch
second 5 is already treated as expired by a `get` one second later: the entry
stores `expire = 0 + 5 = 5`, and `5 > 0 && 5 < 6` makes `get` fail with
`NotFound` instead of returning the value. -/
theorem c3_ttl_zero_counterexample :
    KVFilesystem.get ⟨"r"⟩ (KVFilesystem.set ⟨"r"⟩ fs0 5 "k" 42 0).2 6 "k"
        = .error .notFound ∧
    KVFilesystem.get ⟨"r"⟩ (KVFilesystem.set ⟨"r"⟩ fs0 5 "k" 42 0).2 6 "k"
        ≠ .ok 42 := by
  constructor
  · rfl
  · intro h
    rw [show KVFilesystem.get ⟨"r"⟩ (KVFilesystem.set ⟨"r"⟩ fs0 5 "k" 42 0).2 6 "k"
        = .error .notFound from rfl] at h
    exact absurd h (by simp)

/-- C3 amended: for the Filesystem backend `ttl_seconds = 0` does not make an
entry immortal: `set(k, v, 0)` at epoch second `now` stores
`expire = 0 + now`, so a later `get(k)` at time `now2` returns `v` exactly
while the clock has not passed the set second (`now2 ≤ now`) — or forever in
the single case `now = 0`, the only way `set` produces the stored value `0`
that `get` reads as "never expires" — and fails with `NotFound` as soon as
`0 < now < now2`. -/
theorem fs_set_get_same_key {V : Type} (self : KVFilesystem) (st : FsState V)
    (noww nowr : Nat) (key : String) (v : V) (ttl : Nat)
    (hw : st.wfail (filePath self.path key) = none) :
    (KVFilesystem.set self st noww key v ttl).1 = .ok () ∧
    KVFilesystem.get self (KVFilesystem.set self st noww key v ttl).2 nowr key
      = (if ttl + noww > 0 ∧ ttl + noww < nowr then .error .notFound
         else .ok v) := by
  constructor
  · simp [KVFilesystem.set, hw]
  · simp [KVFilesystem.set, KVFilesystem.get, fsReadToString,
      KVFilesystem.get_logic, hw]

theorem c3_amended_ttl_zero_expires {V : Type} (self : KVFilesystem)
    (st : FsState V) (now now2 : Nat) (key : String) (v : V)
    (hw : st.wfail (filePath self.path key) = none) :
    (KVFilesystem.set self st now key v 0).1 = .ok () ∧
    (KVFilesystem.get self (KVFilesystem.set self st now key v 0).2 now2 key
        = .ok v ↔ (now2 ≤ now ∨ now = 0)) ∧
    (KVFilesystem.get self (KVFilesystem.set self st now key v 0).2 now2 key
        = .error .notFound ↔ (0 < now ∧ now < now2)) := by
  obtain ⟨h1, h2⟩ := fs_set_get_same_key self st now now2 key v 0 hw
  refine ⟨h1, ?_, ?_⟩
  · rw [h2]
    by_cases hc : 0 + now > 0 ∧ 0 + now < now2
    · rw [if_pos hc]
      exact iff_of_false (by simp) (by omega)
    · rw [if_neg hc]
      exact iff_of_true rfl (by omega)
  · rw [h2]
    by_cases hc : 0 + now > 0 ∧ 0 + now < now2
    · rw [if_pos hc]
      exact iff_of_true rfl (by omega)
    · rw [if_neg hc]
      exact iff_of_false (by simp) (by omega)

/-- C3 amended, witness: a value set with TTL 0 at epoch second 5 is still
readable at second 5. -/
theorem c3_amended_ttl_zero_expires_witness :
    fs0.wfail (filePath "r" "k") = none ∧
    KVFilesystem.get ⟨"r"⟩ (KVFilesystem.set ⟨"r"⟩ fs0 5 "k" 42 0).2 5 "k"
      = .ok 42 :=
  ⟨rfl, (c3_amended_ttl_zero_expires ⟨"r"⟩ fs0 5 5 "k" 42 rfl).2.1.mpr
    (Or.inl (by omega))⟩

/-! ## Claim C5 -/

/-- C5: round trip — for every value `v` and TTL `t > 0`, `set(k, v, t)`
followed by `get(k)` with the clock unchanged (hence strictly before the
expiry instant `t + now`) succeeds and returns `v`.  The write itself
succeeds (`wfail` clear at the key's path), as the claim's "set(k, v, t)
followed by get(k)" presupposes. -/
theorem c5_round_trip {V : Type} (self : KVFilesystem) (st : FsState V)
    (now : Nat) (key : String) (v : V) (t : Nat) (ht : 0 < t)
    (hw : st.wfail (filePath self.path key) = none) :
    (KVFilesystem.set self st now key v t).1 = .ok () ∧
    KVFilesystem.get self (KVFilesystem.set self st now key v t).2 now key
      = .ok v := by
  obtain ⟨h1, h2⟩ := fs_set_get_same_key self st now now key v t hw
  exact ⟨h1, by rw [h2, if_neg (by omega)]⟩

/-- C5 witness: `set("k", 42, 7)` at epoch second 100 followed by `get("k")`
at second 100 returns 42. -/
theorem c5_round_trip_witness :
    (0 : Nat) < 7 ∧ fs0.wfail (filePath "r" "k") = none ∧
    KVFilesystem.get ⟨"r"⟩ (KVFilesystem.set ⟨"r"⟩ fs0 100 "k" 42 7).2 100 "k"
      = .ok 42 :=
  ⟨by omega, rfl, (c5_round_trip ⟨"r"⟩ fs0 100 "k" 42 7 (by omega) rfl).2⟩

/-! ## Claim C6 -/

/-- C6: never-expiring boundary — `set(k, v, 0)` followed immediately by
`get(k)` with the clock still at the same second succeeds and returns `v`:
the stored expiry equals the current time and `expire < now` is strict, so
`expire == now` is not treated as already expired.  This holds for every
current time `now`, including `now = 0`. -/
theorem c6_expire_eq_now_not_expired {V : Type} (self : KVFilesystem)
    (st : FsState V) (now : Nat) (key : String) (v : V)
    (hw : st.wfail (filePath self.path key) = none) :
    KVFilesystem.get self (KVFilesystem.set self st now key v 0).2 now key
      = .ok v := by
  obtain ⟨_, h2⟩ := fs_set_get_same_key self st now now key v 0 hw
  rw [h2, if_neg (by omega)]

/-- C6 witness: `set("k", 42, 0)` at epoch second 100 followed by `get("k")`
at second 100 returns 42. -/
theorem c6_expire_eq_now_not_expired_witness :
    fs0.wfail (filePath "r" "k") = none ∧
    KVFilesystem.get ⟨"r"⟩ (KVFilesystem.set ⟨"r"⟩ fs0 100 "k" 42 0).2 100 "k"
      = .ok 42 :=
  ⟨rfl, c6_expire_eq_now_not_expired ⟨"r"⟩ fs0 100 "k" 42 rfl⟩

/-! ## Claim C7 -/

/-- C7 counterexample: with the Filesystem backend active, the facade's
`del` on a key that has no stored value is an error: `KVManager::del` only
delegates, `KVFilesystem::del` propagates the `tokio::fs::remove_file`
failure on the absent file, so the call does not return success. -/
theorem c7_delete_absent_counterexample :
    (KVManager.del (.KVFilesystem ⟨"r"⟩) envEmpty w0 "k").1
        = .error (.ioErr .notFound) ∧
    (KVManager.del (.KVFilesystem ⟨"r"⟩) envEmpty w0 "k").1 ≠ .ok () := by
  constructor
  · rfl
  · intro h
    rw [show (KVManager.del (.KVFilesystem ⟨"r"⟩) envEmpty w0 "k").1
        = .error (.ioErr .notFound) from rfl] at h
    exact absurd h (by simp)

/-- C7 amended: deleting an absent key through the facade is backend
dependent: with the Remote Store backend active (and the store reachable)
`del` succeeds whether or not the key is stored, but with the Filesystem
backend active `del` on an absent key fails with the propagated not-found
I/O error of `remove_file` — the facade adds no tolerance of absence. -/
theorem c7_amended_delete_absent_by_backend {V : Type} (env : EnvMap)
    (w : World V) (key : String) (kv : KVRedis) (self : KVFilesystem)
    (hconn : w.rsSt.connOk = true)
    (habs : w.fsSt.files (filePath self.path (normailze_key env key)) = none) :
    (KVManager.del (.KVRedis kv) env w key).1 = .ok () ∧
    (KVManager.del (.KVFilesystem self) env w key).1
      = .error (.ioErr .notFound) := by
  constructor
  · simp [KVManager.del, KVRedis.del, hconn]
  · simp [KVManager.del, KVFilesystem.del, habs]

/-- C7 amended, witness: on an empty world, facade delete of `k` succeeds
under the Remote Store backend and fails under the Filesystem backend. -/
theorem c7_amended_delete_absent_by_backend_witness :
    w0.rsSt.connOk = true ∧
    w0.fsSt.files (filePath "r" (normailze_key envEmpty "k")) = none ∧
    (KVManager.del (.KVRedis ⟨⟩) envEmpty w0 "k").1 = .ok () ∧
    (KVManager.del (.KVFilesystem ⟨"r"⟩) envEmpty w0 "k").1
      = .error (.ioErr .notFound) :=
  ⟨rfl, rfl,
    (c7_amended_delete_absent_by_backend envEmpty w0 "k" ⟨⟩ ⟨"r"⟩ rfl rfl).1,
    (c7_amended_delete_absent_by_backend envEmpty w0 "k" ⟨⟩ ⟨"r"⟩ rfl rfl).2⟩

/-! ## Claim C4 -/

/-- C4: the derived facade operations special-case only the `NotFound` error
kind: `get_some` returns `Ok(None)` and `get_or` returns `Ok(default)` when
the underlying `get` fails with `NotFound`; every other failure kind from
`get` is propagated unchanged by both; a success is passed through. -/
theorem c4_derived_ops_only_special_case_notfound {V : Type} (m : KVManager)
    (env : EnvMap) (w : World V) (now : Nat) (key : String) (dflt : V) :
    (KVManager.get m env w now key = .error .notFound →
        KVManager.get_some m env w now key = .ok none ∧
        KVManager.get_or m env w now key dflt = .ok dflt) ∧
    (∀ e : KVError, e ≠ .notFound →
        KVManager.get m env w now key = .error e →
        KVManager.get_some m env w now key = .error e ∧
        KVManager.get_or m env w now key dflt = .error e) ∧
    (∀ d : V, KVManager.get m env w now key = .ok d →
        KVManager.get_some m env w now key = .ok (some d) ∧
        KVManager.get_or m env w now key dflt = .ok d) := by
  refine ⟨fun h => ?_, fun e he h => ?_, fun d h => ?_⟩
  · simp [KVManager.get_some, KVManager.get_or, h, is_NotFoundError]
  · have hne : is_NotFoundError e = false := by
      cases e <;> simp_all [is_NotFoundError]
    simp [KVManager.get_some, KVManager.get_or, h, hne]
  · simp [KVManager.get_some, KVManager.get_or, h]

/-- C4 witness: on an empty world the Filesystem-backed `get` of `k` fails
with `NotFound`, `get_some` returns `Ok(None)` and `get_or` returns the
default 7. -/
theorem c4_derived_ops_only_special_case_notfound_witness :
    KVManager.get (.KVFilesystem ⟨"r"⟩) envEmpty w0 0 "k"
      = (.error .notFound : Except KVError Nat) ∧
    KVManager.get_some (.KVFilesystem ⟨"r"⟩) envEmpty w0 0 "k" = .ok none ∧
    KVManager.get_or (.KVFilesystem ⟨"r"⟩) envEmpty w0 0 "k" 7 = .ok 7 :=
  ⟨rfl,
    ((c4_derived_ops_only_special_case_notfound
        (.KVFilesystem ⟨"r"⟩) envEmpty w0 0 "k" 7).1 rfl).1,
    ((c4_derived_ops_only_special_case_notfound
        (.KVFilesystem ⟨"r"⟩) envEmpty w0 0 "k" 7).1 rfl).2⟩

/-! ## Helper lemmas for the `get_or_init` claims -/

theorem manager_fs_get_absent {V : Type} (env : EnvMap) (self : KVFilesystem)
    (w : World V) (now : Nat) (key : String)
    (habs : w.fsSt.files (filePath self.path (normailze_key env key)) = none) :
    KVManager.get (.KVFilesystem self) env w now key = .error .notFound := by
  simp [KVManager.get, KVFilesystem.get, fsReadToString, habs,
    KVFilesystem.get_logic]

theorem manager_get_some_of_notFound {V : Type} (m : KVManager) (env : EnvMap)
    (w : World V) (now : Nat) (key : String)
    (h : KVManager.get m env w now key = .error .notFound) :
    KVManager.get_some m env w now key = .ok (none : Option V) := by
  simp [KVManager.get_some, h, is_NotFoundError]

theorem manager_get_some_of_ok {V : Type} (m : KVManager) (env : EnvMap)
    (w : World V) (now : Nat) (key : String) (v : V)
    (h : KVManager.get m env w now key = .ok v) :
    KVManager.get_some m env w now key = .ok (some v) := by
  simp [KVManager.get_some, h]

theorem get_some_ok_some_inv {V : Type} (m : KVManager) (env : EnvMap)
    (w : World V) (now : Nat) (key : String) (v : V)
    (h : KVManager.get_some m env w now key = .ok (some v)) :
    KVManager.get m env w now key = .ok v := by
  unfold KVManager.get_some at h
  cases hr : KVManager.get m env w now key with
  | ok d =>
    rw [hr] at h
    simp only [Except.ok.injEq, Option.some.injEq] at h
    rw [h]
  | error e =>
    rw [hr] at h
    by_cases hn : is_NotFoundError e = true <;> simp [hn] at h

/-! ## Claim C10 -/

/-- C10: when `get_or_init` finds the key absent (the Filesystem backend's
read finds no file) and the initializer succeeds but the subsequent `set`
fails (the write at the key's path fails with I/O kind `k`), `get_or_init`
returns exactly that `set` failure: the initializer ran once, the caller
receives the propagated write error — no `{value, hit: false}` result and no
substituted error kind — and the state is unchanged. -/
theorem c10_set_failure_propagates {V : Type} (env : EnvMap)
    (self : KVFilesystem) (w : World V) (now ttl : Nat) (key : String)
    (c : V) (k : IoKind)
    (habs : w.fsSt.files (filePath self.path (normailze_key env key)) = none)
    (hw : w.fsSt.wfail (filePath self.path (normailze_key env key)) = some k) :
    KVManager.get_or_init (.KVFilesystem self) env w now key (.ok c) ttl
      = (.error (.ioErr k), 1, w) := by
  have hgs : KVManager.get_some (.KVFilesystem self) env w now key
      = .ok (none : Option V) :=
    manager_get_some_of_notFound _ _ _ _ _
      (manager_fs_get_absent env self w now key habs)
  have hset : KVManager.set (.KVFilesystem self) env w now key c ttl
      = (.error (.ioErr k), w) := by
    simp [KVManager.set, KVFilesystem.set, hw]
  simp only [KVManager.get_or_init, hgs, hset]

/-- C10 witness: on a world where every write fails with a permission error,
`get_or_init` of the absent key `k` returns the write's error and counts one
initializer invocation. -/
theorem c10_set_failure_propagates_witness :
    wFail.fsSt.files (filePath "r" (normailze_key envEmpty "k")) = none ∧
    wFail.fsSt.wfail (filePath "r" (normailze_key envEmpty "k"))
      = some .permissionDenied ∧
    KVManager.get_or_init (.KVFilesystem ⟨"r"⟩) envEmpty wFail 100 "k"
        (.ok 42) 10
      = (.error (.ioErr .permissionDenied), 1, wFail) :=
  ⟨rfl, rfl,
    c10_set_failure_propagates envEmpty ⟨"r"⟩ wFail 100 10 "k" 42
      .permissionDenied rfl rfl⟩

/-! ## Claim C1 -/

/-- C1: on a key with no stored value (no file at the key's path, write
permitted), `get_or_init` invokes the supplied initializer exactly once
(invocation count 1), stores its result under the key with expiry
`ttl + now`, and returns `{value: computed, hit: false}`; a subsequent
`get_or_init` on that key before expiry (`now2 ≤ ttl + now`) returns
`{value: computed, hit: true}` without invoking its own initializer
(invocation count 0) and leaves the state unchanged.  In general, whenever
`get_or_init` returns `Ok r`, `r.hit = true` holds iff the initializer was
not invoked, and a hit's value is exactly what the underlying `get` read. -/
theorem c1_get_or_init_miss_then_hit {V : Type} (env : EnvMap)
    (self : KVFilesystem) (w : World V) (now now2 ttl : Nat) (key : String)
    (c : V) (init2 : Except KVError V)
    (habs : w.fsSt.files (filePath self.path (normailze_key env key)) = none)
    (hw : w.fsSt.wfail (filePath self.path (normailze_key env key)) = none)
    (hfresh : now2 ≤ ttl + now) :
    (∃ w2 : World V,
      KVManager.get_or_init (.KVFilesystem self) env w now key (.ok c) ttl
        = (.ok ⟨c, false⟩, 1, w2) ∧
      w2.fsSt.files (filePath self.path (normailze_key env key))
        = some (.val ⟨c, ttl + now⟩) ∧
      KVManager.get_or_init (.KVFilesystem self) env w2 now2 key init2 ttl
        = (.ok ⟨c, true⟩, 0, w2)) ∧
    (∀ (m : KVManager) (w3 : World V) (now3 ttl3 : Nat) (key3 : String)
        (init3 : Except KVError V) (r : KvGetOrInitResult V),
      (KVManager.get_or_init m env w3 now3 key3 init3 ttl3).1 = .ok r →
      ((r.hit = true ↔
          (KVManager.get_or_init m env w3 now3 key3 init3 ttl3).2.1 = 0) ∧
        (r.hit = true → KVManager.get m env w3 now3 key3 = .ok r.value))) := by
  constructor
  · have hgs1 : KVManager.get_some (.KVFilesystem self) env w now key
        = .ok (none : Option V) :=
      manager_get_some_of_notFound _ _ _ _ _
        (manager_fs_get_absent env self w now key habs)
    have hs1 :=
      (fs_set_get_same_key self w.fsSt now now2 (normailze_key env key) c ttl hw).1
    have hs2 :=
      (fs_set_get_same_key self w.fsSt now now2 (normailze_key env key) c ttl hw).2
    have hset : KVManager.set (.KVFilesystem self) env w now key c ttl
        = (.ok (),
          { w with
            fsSt := (KVFilesystem.set self w.fsSt now (normailze_key env key)
              c ttl).2 }) := by
      simp only [KVManager.set]
      exact Prod.ext hs1 rfl
    refine ⟨{ w with
      fsSt := (KVFilesystem.set self w.fsSt now (normailze_key env key)
        c ttl).2 }, ?_, ?_, ?_⟩
    · simp only [KVManager.get_or_init, hgs1, hset]
    · simp [KVFilesystem.set, hw]
    · have hget2 : KVManager.get (.KVFilesystem self) env
          { w with
            fsSt := (KVFilesystem.set self w.fsSt now (normailze_key env key)
              c ttl).2 } now2 key
          = .ok c := by
        simp only [KVManager.get]
        rw [hs2, if_neg (by omega)]
      have hgs2 := manager_get_some_of_ok _ _ _ _ _ _ hget2
      simp only [KVManager.get_or_init, hgs2]
  · intro m w3 now3 ttl3 key3 init3 r h
    cases hgs : KVManager.get_some m env w3 now3 key3 with
    | error e =>
      simp only [KVManager.get_or_init, hgs] at h
      exact absurd h (by simp)
    | ok ov =>
      cases ov with
      | some v =>
        simp only [KVManager.get_or_init, hgs] at h ⊢
        simp only [Except.ok.injEq] at h
        subst h
        exact ⟨by simp, fun _ => get_some_ok_some_inv m env w3 now3 key3 v hgs⟩
      | none =>
        simp only [KVManager.get_or_init, hgs] at h ⊢
        cases init3 with
        | error e =>
          exact absurd h (by simp)
        | ok value =>
          rcases hs : KVManager.set m env w3 now3 key3 value ttl3 with ⟨res, w4⟩
          cases res with
          | error e2 =>
            simp only [hs] at h
            exact absurd h (by simp)
          | ok u =>
            simp only [hs] at h ⊢
            simp only [Except.ok.injEq] at h
            subst h
            simp

/-- C1 witness: on an empty world, a first `get_or_init` of `k` at second 100
with TTL 10 computes 42, stores it with expiry 110 and misses; a second call
at second 105 hits with 42 without consulting its (failing) initializer. -/
theorem c1_get_or_init_miss_then_hit_witness :
    w0.fsSt.files (filePath "r" (normailze_key envEmpty "k")) = none ∧
    w0.fsSt.wfail (filePath "r" (normailze_key envEmpty "k")) = none ∧
    (105 : Nat) ≤ 10 + 100 ∧
    (∃ w2 : World Nat,
      KVManager.get_or_init (.KVFilesystem ⟨"r"⟩) envEmpty w0 100 "k"
          (.ok 42) 10
        = (.ok ⟨42, false⟩, 1, w2) ∧
      w2.fsSt.files (filePath "r" (normailze_key envEmpty "k"))
        = some (.val ⟨42, 10 + 100⟩) ∧
      KVManager.get_or_init (.KVFilesystem ⟨"r"⟩) envEmpty w2 105 "k"
          (.error .connection) 10
        = (.ok ⟨42, true⟩, 0, w2)) :=
  ⟨rfl, rfl, by omega,
    (c1_get_or_init_miss_then_hit envEmpty ⟨"r"⟩ w0 100 105 10 "k" 42
      (.error .connection) rfl rfl (by omega)).1⟩
